import Mathlib

/-
Verification of the IcmpTunnel repository (src/Icmp.py, src/Tunnel.py)
against its natural-language specification.

The Python source is shallowly embedded below.  Python 2 semantics are
modelled: a str is a byte string, so both are `List Nat` (byte values);
an int is unbounded, modelled as `Nat` (all integers in the program are
non-negative).  Fallible Python operations return `Except PyErr`, with
the error constructor recording which kind of Python exception is
raised.  Comments cite the source file and line being embedded.
-/

namespace IcmpTunnel

/-- The kinds of Python exceptions the embedded code can raise. -/
inductive PyErr where
  | typeError
  | socketError
  | structError
  | valueError
deriving DecidableEq

/-- A dynamically typed Python value as it flows through Icmp.py:
either None, an int, or a byte string (Python 2 str and bytes
coincide). -/
inductive PyVal where
  | none
  | int (n : Nat)
  | bytes (s : List Nat)
deriving DecidableEq

/-- ASCII decimal digits of a natural number, fuel-indexed so that the
recursion is structural.  `decDigitsAux (n+1) n` computes str(n). -/
def decDigitsAux : Nat → Nat → List Nat
  | 0, _ => []
  | fuel + 1, n =>
    if n < 10 then [48 + n]
    else decDigitsAux fuel (n / 10) ++ [48 + n % 10]

/-- ASCII bytes of the decimal representation str(n) of a Python int. -/
def decRepr (n : Nat) : List Nat := decDigitsAux (n + 1) n

/-- The dotted-quad string a.b.c.d produced by socket.inet_ntoa from
the four address bytes (46 is the ASCII code of the dot). -/
def dottedQuad (a b c d : Nat) : List Nat :=
  decRepr a ++ 46 :: (decRepr b ++ 46 :: (decRepr c ++ 46 :: decRepr d))

/-- socket.inet_ntoa: requires a packed 4-byte string and renders it as
a dotted-quad string.  A str of any other length raises socket.error
(Python 2: packed IP wrong length); an int raises TypeError. -/
def inet_ntoa (v : PyVal) : Except PyErr (List Nat) :=
  match v with
  | .bytes [a, b, c, d] => .ok (dottedQuad a b c d)
  | .bytes _ => .error .socketError
  | _ => .error .typeError

/-- Split a byte string on the ASCII dot (46), as dotted-quad parsing
inside socket.inet_aton does. -/
def splitDots : List Nat → List (List Nat)
  | [] => [[]]
  | c :: rest =>
    match splitDots rest with
    | [] => [[c]]
    | g :: gs => if c = 46 then [] :: g :: gs else (c :: g) :: gs

/-- Parse a nonempty group of ASCII decimal digits; accumulator form. -/
def parseDecAux : List Nat → Nat → Option Nat
  | [], acc => some acc
  | c :: rest, acc =>
    if 48 ≤ c ∧ c ≤ 57 then parseDecAux rest (acc * 10 + (c - 48))
    else Option.none

/-- Parse a nonempty all-digit byte group as a decimal number. -/
def parseDec : List Nat → Option Nat
  | [] => Option.none
  | g => parseDecAux g 0

/-- socket.inet_aton: requires a str; a dotted quad a.b.c.d with each
component at most 255 yields the four packed address bytes, any other
str raises socket.error, and a non-str argument (in particular the int
tunnel magic) raises TypeError. -/
def inet_aton (v : PyVal) : Except PyErr (List Nat) :=
  match v with
  | .bytes s =>
    match (splitDots s).mapM parseDec with
    | some [a, b, c, d] =>
      if a ≤ 255 ∧ b ≤ 255 ∧ c ≤ 255 ∧ d ≤ 255 then .ok [a, b, c, d]
      else .error .socketError
    | _ => .error .socketError
  | _ => .error .typeError

/-- Big-endian bytes of a 16-bit value (struct format H). -/
def be16 (n : Nat) : List Nat := [n / 256 % 256, n % 256]

/-- Big-endian bytes of a 32-bit value (struct format L with !). -/
def be32 (n : Nat) : List Nat :=
  [n / 16777216 % 256, n / 65536 % 256, n / 256 % 256, n % 256]

/-- Read one byte of a byte string (0 when out of range; all reads
below are guarded by length checks mirroring struct.unpack). -/
def rd8 (l : List Nat) (i : Nat) : Nat := l.getD i 0

/-- Read a big-endian 16-bit field at offset i. -/
def rd16 (l : List Nat) (i : Nat) : Nat := 256 * rd8 l i + rd8 l (i + 1)

/-- Read a big-endian 32-bit field at offset i. -/
def rd32 (l : List Nat) (i : Nat) : Nat :=
  16777216 * rd8 l i + 65536 * rd8 l (i + 1) + 256 * rd8 l (i + 2) + rd8 l (i + 3)

/-- Icmp.py line 11: ICMP echo reply constant. -/
def ICMP_ECHO_REPLY : Nat := 0

/-- Icmp.py line 12: ICMP echo request constant. -/
def ICMP_ECHO_REQUEST : Nat := 8

/-- Icmp.py lines 42-64: the attributes stored by IcmpPacket.__init__.
The dst attribute is either None or an (address, port) pair; srcIp and
magic are dynamically typed (magic defaults to the int MAGIC, while
Parse stores byte strings in both slots). -/
structure IcmpPacket where
  type : Nat
  code : Nat
  checksum : Nat
  id : Nat
  sequence : Nat
  payload : List Nat
  srcIp : PyVal
  dst : Option (PyVal × Nat)
  magic : PyVal
deriving DecidableEq

namespace IcmpPacket

/-- Icmp.py line 37: magic to validate that a packet is a tunnel
packet. -/
def MAGIC : Nat := 0x24426886

/-- Icmp.py lines 137-138: the summation loop of Checksum.  For each
byte pair the code adds (packet[i] + packet[i+1]) * 256, masked to 32
bits at every step. -/
def sumPairs : List Nat → Nat → Nat
  | a :: b :: rest, acc => sumPairs rest ((acc + (a + b) * 256) &&& 0xFFFFFFFF)
  | _, acc => acc

/-- Icmp.py lines 123-150: IcmpPacket.Checksum.  Sums byte pairs as
(packet[i] + packet[i+1]) * 256, adds an odd trailing byte directly,
folds the 32-bit accumulator twice, complements the low 16 bits
(Python: ~checksum & 0xFFFF) and finally swaps the two result bytes. -/
def Checksum (packet : List Nat) : Nat :=
  let s := sumPairs packet 0
  let s := if (packet.length / 2) * 2 < packet.length
    then (s + packet.getLastD 0) &&& 0xFFFFFFFF else s
  let c1 := (s >>> 16) + (s &&& 0xFFFF)
  let c2 := c1 + (c1 >>> 16)
  let answer := 0xFFFF ^^^ (c2 &&& 0xFFFF)
  (answer >>> 8) ||| ((answer <<< 8) &&& 0xFF00)

/-- struct.pack of the ICMP_HEADER format !BBHHH4sHL (Icmp.py line 36)
followed by the optional payload bytes.  The L slot for the magic
receives whatever value was placed in packArgs; struct.pack raises
struct.error unless it is an integer in range (Icmp.py line 75 places
the 4-byte result of inet_aton there, which is not an integer).
Numeric fields out of range also raise struct.error; the 4s field pads
or truncates to 4 bytes. -/
def structPackPacket (type code checksum id sequence : Nat) (dstB : List Nat)
    (dstPort : Nat) (magicArg : PyVal) (payload : List Nat) :
    Except PyErr (List Nat) :=
  match magicArg with
  | .int m =>
    if type < 256 ∧ code < 256 ∧ checksum < 65536 ∧ id < 65536 ∧
       sequence < 65536 ∧ dstPort < 65536 ∧ m < 4294967296 then
      .ok ([type, code] ++ be16 checksum ++ be16 id ++ be16 sequence ++
        (dstB.take 4 ++ List.replicate (4 - dstB.length) 0) ++
        be16 dstPort ++ be32 m ++ payload)
    else .error .structError
  | _ => .error .structError

/-- Icmp.py lines 66-86: IcmpPacket.Create.  Evaluation order of line
75: self.dst[0] is subscripted (TypeError when dst is None), then
inet_aton(self.dst[0]), then inet_aton(self.magic) (TypeError when the
magic is the default int), and the aton result lands in the 16+L slot
of struct.pack.  Line 83 packs once with checksum 0, line 84-86 packs
again with the computed checksum. -/
def Create (p : IcmpPacket) : Except PyErr (List Nat) :=
  match p.dst with
  | Option.none => .error .typeError
  | some (dstAddr, dstPort) =>
    match inet_aton dstAddr with
    | .error e => .error e
    | .ok dstB =>
      match inet_aton p.magic with
      | .error e => .error e
      | .ok magicB =>
        match structPackPacket p.type p.code 0 p.id p.sequence dstB dstPort
            (.bytes magicB) p.payload with
        | .error e => .error e
        | .ok firstPass =>
          structPackPacket p.type p.code (Checksum firstPass) p.id p.sequence
            dstB dstPort (.bytes magicB) p.payload

/-- Icmp.py lines 98-101: struct.unpack of the IP_HEADER !BBHHHBBH4s4s
requires exactly 20 bytes; the code consumes only field index 8, the
packed source address (bytes 12..15). -/
def ipSrcField (raw : List Nat) : Except PyErr (List Nat) :=
  if raw.length = 20 then .ok ((raw.drop 12).take 4) else .error .structError

/-- The eight fields of the ICMP_HEADER format !BBHHH4sHL in order. -/
structure IcmpHeaderFields where
  type : Nat
  code : Nat
  checksum : Nat
  id : Nat
  sequence : Nat
  dstIp : List Nat
  dstPort : Nat
  magic : Nat
deriving DecidableEq

/-- Icmp.py line 113: struct.unpack of the ICMP_HEADER requires exactly
18 bytes and yields the eight header fields; the magic is the L field,
a big-endian 32-bit integer at offset 14. -/
def structUnpackICMP (raw : List Nat) : Except PyErr IcmpHeaderFields :=
  if raw.length = 18 then
    .ok { type := rd8 raw 0, code := rd8 raw 1, checksum := rd16 raw 2,
          id := rd16 raw 4, sequence := rd16 raw 6,
          dstIp := (raw.drop 8).take 4, dstPort := rd16 raw 12,
          magic := rd32 raw 14 }
  else .error .structError

/-- Icmp.py lines 88-120: IcmpPacket.Parse.  Splits the datagram into
the 20-byte IP header and the ICMP region, reads the source address,
takes everything past the 18-byte ICMP prefix as payload (line 104
initialises it to the empty string), unpacks the ICMP header, converts
the source and destination addresses with inet_ntoa, and then (line
118) calls inet_ntoa again on srcIp - which at that point is already
the dotted-quad string, not 4 packed bytes - to produce the magic
attribute. -/
def Parse (d : List Nat) : Except PyErr IcmpPacket :=
  let rawIp := d.take 20
  let rawIcmp := d.drop 20
  match ipSrcField rawIp with
  | .error e => .error e
  | .ok srcIpB =>
    let payload := if rawIcmp.length > 18 then rawIcmp.drop 18 else []
    match structUnpackICMP (rawIcmp.take 18) with
    | .error e => .error e
    | .ok hdr =>
      match inet_ntoa (.bytes srcIpB) with
      | .error e => .error e
      | .ok srcIpS =>
        match inet_ntoa (.bytes hdr.dstIp) with
        | .error e => .error e
        | .ok dstS =>
          match inet_ntoa (.bytes srcIpS) with
          | .error e => .error e
          | .ok magicS =>
            .ok { type := hdr.type, code := hdr.code,
                  checksum := hdr.checksum, id := hdr.id,
                  sequence := hdr.sequence, payload := payload,
                  srcIp := .bytes srcIpS,
                  dst := some (.bytes dstS, hdr.dstPort),
                  magic := .bytes magicS }

end IcmpPacket

/-- A socket in a watch list, tagged as in Tunnel.py by its protocol
(sock.proto == IPPROTO_ICMP distinguishes the raw ICMP socket); stream
sockets carry a generation number so that a freshly connected socket
is distinct from every other socket. -/
inductive Sock where
  | icmp
  | tcp (gen : Nat)
deriving DecidableEq

/-- Tunnel.py lines 79-86: the mutable attributes of Server.  src and
dst start as None; tcpSocket is None until a stream connection is
opened (its generation is stored); sockets is the select watch list;
tcpGen supplies the generation of the next socket CreateTcpSocket
returns. -/
structure ServerState where
  src : Option (List Nat)
  dst : Option (PyVal × Nat)
  tcpSocket : Option Nat
  sockets : List Sock
  tcpGen : Nat
deriving DecidableEq

/-- Result of one Server handler call: the state afterwards, the raw
ICMP datagrams passed to sendto (payload bytes with the (address,
port) destination), the byte strings written to the stream socket, and
the Python exception propagating out of the handler, if any. -/
structure SOut where
  st : ServerState
  icmpSent : List (List Nat × (List Nat × Nat))
  tcpSent : List (List Nat)
  exn : Option PyErr
deriving DecidableEq

/-- Tunnel.py lines 160-172: the attributes of Client.  proxy and dst
come from the proxy bootstrap; the accepted stream socket and the raw
ICMP socket are both watched. -/
structure ClientState where
  proxy : List Nat
  dst : List Nat × Nat
  sockets : List Sock
deriving DecidableEq

/-- Result of one Client handler call; exited records whether the
handler reached the exit() call at Tunnel.py line 216. -/
structure COut where
  st : ClientState
  icmpSent : List (List Nat × (List Nat × Nat))
  tcpSent : List (List Nat)
  exn : Option PyErr
  exited : Bool
deriving DecidableEq

namespace Server

/-- Tunnel.py lines 79-86: Server.__init__, the idle state whose watch
list holds only the raw ICMP socket. -/
def initState : ServerState :=
  { src := Option.none, dst := Option.none, tcpSocket := Option.none,
    sockets := [Sock.icmp], tcpGen := 0 }

/-- Tunnel.py lines 104-131: the body of Server.HandleIcmp after a
successful Parse, as a function of the state, the recvfrom source
address and the parsed packet.  Lines 104-105 overwrite src and dst
before the magic test of line 108.  Line 112 drops echo replies with
code 0.  Lines 117-122 handle an END request: list.remove raises
ValueError when the stored tcpSocket (None included) is not in the
watch list, before any mutation.  Lines 124-131 open a stream socket
when none exists and forward the payload. -/
def HandleIcmpParsed (s0 : ServerState) (addr : List Nat) (p : IcmpPacket) :
    SOut :=
  let s := { s0 with src := some addr, dst := p.dst }
  if p.magic ≠ PyVal.int IcmpPacket.MAGIC then ⟨s, [], [], Option.none⟩
  else if p.type = ICMP_ECHO_REPLY ∧ p.code = 0 then ⟨s, [], [], Option.none⟩
  else if p.type = ICMP_ECHO_REQUEST ∧ p.code = 1 then
    match s.tcpSocket with
    | Option.none => ⟨s, [], [], some .valueError⟩
    | some t =>
      if Sock.tcp t ∈ s.sockets then
        ⟨{ s with sockets := s.sockets.erase (Sock.tcp t),
                  tcpSocket := Option.none }, [], [], Option.none⟩
      else ⟨s, [], [], some .valueError⟩
  else
    match s.tcpSocket with
    | Option.none =>
      ⟨{ s with tcpSocket := some s.tcpGen,
                sockets := s.sockets ++ [Sock.tcp s.tcpGen],
                tcpGen := s.tcpGen + 1 }, [], [p.payload], Option.none⟩
    | some _ => ⟨s, [], [p.payload], Option.none⟩

/-- Tunnel.py lines 88-131: Server.HandleIcmp on the raw received
datagram: Parse it, swallow any parse exception (lines 98-102), and
otherwise run the post-parse body. -/
def HandleIcmp (s : ServerState) (addr : List Nat) (raw : List Nat) : SOut :=
  match IcmpPacket.Parse raw with
  | .error _ => ⟨s, [], [], Option.none⟩
  | .ok p => HandleIcmpParsed s addr p

/-- Tunnel.py lines 133-145: Server.HandleTcp.  Wraps the stream bytes
in an IcmpPacket(ICMP_ECHO_REPLY, 0, 0, 0, 0, data, self.src,
self.dst) - the magic keeping its default int value - and sends
packet.Create() to (self.src, 0).  Create is evaluated before sendto,
so an exception there prevents any send. -/
def HandleTcp (s : ServerState) (data : List Nat) : SOut :=
  let pkt : IcmpPacket :=
    { type := ICMP_ECHO_REPLY, code := 0, checksum := 0, id := 0,
      sequence := 0, payload := data,
      srcIp := match s.src with
        | some a => .bytes a
        | Option.none => PyVal.none,
      dst := s.dst, magic := .int IcmpPacket.MAGIC }
  match IcmpPacket.Create pkt with
  | .error e => ⟨s, [], [], some e⟩
  | .ok bytes => ⟨s, [(bytes, (s.src.getD [], 0))], [], Option.none⟩

end Server

namespace Client

/-- Tunnel.py lines 160-172: Client.__init__; the accepted stream
socket and the fresh raw ICMP socket are watched. -/
def initState (proxy : List Nat) (dst : List Nat × Nat) : ClientState :=
  { proxy := proxy, dst := dst, sockets := [Sock.tcp 0, Sock.icmp] }

/-- Tunnel.py lines 191-197: the body of Client.HandleIcmp after a
successful Parse: drop on magic mismatch, drop echo requests, and
otherwise write the payload to the stream socket.  No attribute of the
client is ever mutated. -/
def HandleIcmpParsed (c : ClientState) (p : IcmpPacket) : COut :=
  if p.magic ≠ PyVal.int IcmpPacket.MAGIC then ⟨c, [], [], Option.none, false⟩
  else if p.type ≠ ICMP_ECHO_REQUEST then ⟨c, [], [p.payload], Option.none, false⟩
  else ⟨c, [], [], Option.none, false⟩

/-- Tunnel.py lines 174-197: Client.HandleIcmp on the raw datagram;
the bare except of lines 185-189 swallows any parse exception. -/
def HandleIcmp (c : ClientState) (raw : List Nat) : COut :=
  match IcmpPacket.Parse raw with
  | .error _ => ⟨c, [], [], Option.none, false⟩
  | .ok p => HandleIcmpParsed c p

/-- Tunnel.py lines 199-216: Client.HandleTcp.  code is 0 (DATA) for a
non-empty read and 1 (END) for an empty one; the packet is built with
the default int magic (srcIp receives the getsockname() tuple, which
Create never reads, modelled as PyVal.none) and packet.Create() is
evaluated before sendto, so an exception there prevents the send and
makes the exit() of line 216 unreachable. -/
def HandleTcp (c : ClientState) (data : List Nat) : COut :=
  let code := if data.length > 0 then 0 else 1
  let pkt : IcmpPacket :=
    { type := ICMP_ECHO_REQUEST, code := code, checksum := 0, id := 0,
      sequence := 0, payload := data, srcIp := PyVal.none,
      dst := some (.bytes c.dst.1, c.dst.2), magic := .int IcmpPacket.MAGIC }
  match IcmpPacket.Create pkt with
  | .error e => ⟨c, [], [], some e, false⟩
  | .ok bytes => ⟨c, [(bytes, (c.proxy, 1))], [], Option.none, code == 1⟩

end Client

/-- The inductive strengthening of the watch-set invariant: the watch
list is exactly [icmp] in Idle and exactly [icmp, tcp t] in Active. -/
def sockInv (s : ServerState) : Prop :=
  match s.tcpSocket with
  | Option.none => s.sockets = [Sock.icmp]
  | some t => s.sockets = [Sock.icmp, Sock.tcp t]

/-- Responder states reachable from Server.__init__ by handler steps:
an ICMP receive on the raw datagram, the post-parse ICMP body (stream
open and teardown included), and a stream receive. -/
inductive Reachable : ServerState → Prop where
  | init : Reachable Server.initState
  | icmp (s : ServerState) (addr raw : List Nat) :
      Reachable s → Reachable (Server.HandleIcmp s addr raw).st
  | icmpParsed (s : ServerState) (addr : List Nat) (p : IcmpPacket) :
      Reachable s → Reachable (Server.HandleIcmpParsed s addr p).st
  | tcp (s : ServerState) (data : List Nat) :
      Reachable s → Reachable (Server.HandleTcp s data).st

/-- Big-endian 16-bit word sum of a byte string, an odd trailing byte
acting as the high byte of a final word, as the spec words it. -/
def sumWordsBE : List Nat → Nat
  | a :: b :: rest => 256 * a + b + sumWordsBE rest
  | [a] => 256 * a
  | [] => 0

/-- Reference definition following the words of the spec (section 4.1,
Checksum algorithm): big-endian 16-bit words, odd trailing byte as the
high byte of a final word, carries folded twice, result inverted to 16
bits.  Stated for comparison with the Checksum of the source. -/
def specInternetChecksum (packet : List Nat) : Nat :=
  let s := sumWordsBE packet
  let s := (s &&& 0xFFFF) + (s >>> 16)
  let s := (s &&& 0xFFFF) + (s >>> 16)
  0xFFFF ^^^ (s &&& 0xFFFF)

/-- ASCII bytes of the string 10.0.0.100, an example source address. -/
def addrExample : List Nat := [49, 48, 46, 48, 46, 48, 46, 49, 48, 48]

/-- ASCII bytes of the string 10.0.0.1, an example proxy address. -/
def proxyExample : List Nat := [49, 48, 46, 48, 46, 48, 46, 49]

/-- ASCII bytes of the string 10.0.0.5, an example destination
address. -/
def dstAddrExample : List Nat := [49, 48, 46, 48, 46, 48, 46, 53]

/-- The embedded destination (10.0.0.5, 80) as a packet dst value. -/
def dstExample : Option (PyVal × Nat) := some (.bytes dstAddrExample, 80)

/-- The four bytes of GET followed by a newline. -/
def gBytes : List Nat := [71, 69, 84, 10]

/-- A parsed-level tunnel DATA request with empty payload and the
integer tunnel magic. -/
def emptyDataPacket : IcmpPacket :=
  { type := 8, code := 0, checksum := 0, id := 0, sequence := 0,
    payload := [], srcIp := .bytes addrExample, dst := dstExample,
    magic := .int IcmpPacket.MAGIC }

/-- A parsed-level tunnel END request (echo request, code 1). -/
def endPacket : IcmpPacket :=
  { type := 8, code := 1, checksum := 0, id := 0, sequence := 0,
    payload := [], srcIp := .bytes addrExample, dst := dstExample,
    magic := .int IcmpPacket.MAGIC }

/-- A structurally well-formed tunnel packet whose magic is the
foreign value 0xDEADBEEF (spec scenario 6, noise rejection). -/
def wrongMagicPacket : IcmpPacket :=
  { type := 8, code := 0, checksum := 0, id := 0, sequence := 0,
    payload := [1, 2, 3], srcIp := .bytes addrExample, dst := dstExample,
    magic := .int 0xDEADBEEF }

/-- The tunnel packet of spec scenario 1: echo request, code DATA,
dst (10.0.0.5, 80), the integer tunnel magic, payload GET. -/
def tunnelPacketExample : IcmpPacket :=
  { type := 8, code := 0, checksum := 0, id := 0, sequence := 0,
    payload := gBytes, srcIp := PyVal.none, dst := dstExample,
    magic := .int IcmpPacket.MAGIC }

/-- An Active responder state: the stream socket of generation 0 is
open and watched. -/
def serverActiveExample : ServerState :=
  { src := some addrExample, dst := dstExample, tcpSocket := some 0,
    sockets := [Sock.icmp, Sock.tcp 0], tcpGen := 1 }

/-- A client engine targeting proxy 10.0.0.1 and dst (10.0.0.5, 80). -/
def clientExample : ClientState :=
  Client.initState proxyExample (dstAddrExample, 80)

/-- A 20-byte options-less IP header whose source field (offset 12) is
10.0.0.100. -/
def ipHeaderExample : List Nat :=
  [0x45, 0, 0, 38, 0, 0, 0, 0, 64, 1, 0, 0, 10, 0, 0, 100, 10, 0, 0, 1]

/-- An 18-byte tunnel ICMP region: echo request, code 0, dst 10.0.0.5
port 80, and the wire magic bytes 0x24 0x42 0x68 0x86 at offset 14. -/
def icmpRegionExample : List Nat :=
  [8, 0, 0, 0, 0, 0, 0, 0, 10, 0, 0, 5, 0, 80, 0x24, 0x42, 0x68, 0x86]

/-- A full received tunnel datagram: IP header plus ICMP region. -/
def exampleDatagram : List Nat := ipHeaderExample ++ icmpRegionExample

/-- A second received tunnel datagram, source 192.168.1.7, with the
GET payload appended after the 18-byte ICMP prefix. -/
def exampleDatagram2 : List Nat :=
  [0x45, 0, 0, 42, 0, 0, 0, 0, 64, 1, 0, 0, 192, 168, 1, 7, 10, 0, 0, 1] ++
    icmpRegionExample ++ gBytes

theorem decDigitsAux_length_pos (fuel n : Nat) :
    1 ≤ (decDigitsAux (fuel + 1) n).length := by
  unfold decDigitsAux
  split <;> simp

theorem decRepr_length_pos (n : Nat) : 1 ≤ (decRepr n).length :=
  decDigitsAux_length_pos n n

theorem dottedQuad_length_ne_four (a b c d : Nat) :
    (dottedQuad a b c d).length ≠ 4 := by
  have ha := decRepr_length_pos a
  have hb := decRepr_length_pos b
  have hc := decRepr_length_pos c
  have hd := decRepr_length_pos d
  simp only [dottedQuad, List.length_append, List.length_cons]
  omega

theorem inet_ntoa_of_len4 (l : List Nat) (h : l.length = 4) :
    ∃ a b c d, l = [a, b, c, d] ∧
      inet_ntoa (.bytes l) = .ok (dottedQuad a b c d) := by
  match l, h with
  | [a, b, c, d], _ => exact ⟨a, b, c, d, rfl, rfl⟩

theorem inet_ntoa_of_len_ne4 (l : List Nat) (h : l.length ≠ 4) :
    inet_ntoa (.bytes l) = .error .socketError := by
  match l with
  | [] => rfl
  | [_] => rfl
  | [_, _] => rfl
  | [_, _, _] => rfl
  | [_, _, _, _] => simp at h
  | _ :: _ :: _ :: _ :: _ :: _ => rfl

/-- Icmp.py line 118 makes every Parse call raise: by then srcIp is
the dotted-quad string of the source address, whose length is at least
7, and inet_ntoa rejects any string whose length is not 4. -/
theorem parse_always_fails (d : List Nat) :
    ∃ e, IcmpPacket.Parse d = .error e := by
  unfold IcmpPacket.Parse IcmpPacket.ipSrcField IcmpPacket.structUnpackICMP
  by_cases h20 : 20 ≤ d.length
  · by_cases h18 : 18 ≤ d.length - 20
    · have hsrc : (((d.take 20).drop 12).take 4).length = 4 := by
        simp
        omega
      obtain ⟨a, b, c, d', heq, hok⟩ := inet_ntoa_of_len4 _ hsrc
      have hdst : ((((d.drop 20).take 18).drop 8).take 4).length = 4 := by
        simp
        omega
      obtain ⟨a2, b2, c2, d2, heq2, hok2⟩ := inet_ntoa_of_len4 _ hdst
      have hbad : inet_ntoa (.bytes (dottedQuad a b c d')) =
          .error .socketError :=
        inet_ntoa_of_len_ne4 _ (dottedQuad_length_ne_four a b c d')
      simp [h20, h18, hok, hok2, hbad]
    · simp [h20, h18]
  · simp [h20]

/-- The magic slot of the pack format is L; Icmp.py line 75 places the
4-byte inet_aton result there, so struct.pack always raises. -/
theorem structPackPacket_bytes_magic (type code checksum id sequence : Nat)
    (dstB : List Nat) (dstPort : Nat) (magicB payload : List Nat) :
    IcmpPacket.structPackPacket type code checksum id sequence dstB dstPort
      (.bytes magicB) payload = .error .structError := rfl

/-- IcmpPacket.Create can never return bytes: when the magic is the
default int, inet_aton raises TypeError on it; when the magic is a
string, its inet_aton result is placed into the integer L slot of
struct.pack, which raises struct.error. -/
theorem create_never_ok (p : IcmpPacket) :
    ∃ e, IcmpPacket.Create p = .error e := by
  unfold IcmpPacket.Create
  rcases hd : p.dst with _ | ⟨dstAddr, dstPort⟩
  · exact ⟨.typeError, rfl⟩
  · dsimp only
    rcases hA : inet_aton dstAddr with e | dstB
    · exact ⟨e, rfl⟩
    · rcases hM : inet_aton p.magic with e | magicB
      · exact ⟨e, rfl⟩
      · exact ⟨.structError, rfl⟩

/-- With the default int magic the failure of Create is specifically
the TypeError of inet_aton applied to an integer. -/
theorem inet_aton_int (n : Nat) :
    inet_aton (.int n) = .error .typeError := rfl

theorem serverHandleTcp_noSend (s : ServerState) (data : List Nat) :
    (Server.HandleTcp s data).st = s ∧
    (Server.HandleTcp s data).icmpSent = [] := by
  unfold Server.HandleTcp
  obtain ⟨e, he⟩ := create_never_ok
    { type := ICMP_ECHO_REPLY, code := 0, checksum := 0, id := 0,
      sequence := 0, payload := data,
      srcIp := match s.src with
        | some a => .bytes a
        | Option.none => PyVal.none,
      dst := s.dst, magic := .int IcmpPacket.MAGIC }
  simp [he]

theorem clientHandleTcp_noSend (c : ClientState) (data : List Nat) :
    (Client.HandleTcp c data).st = c ∧
    (Client.HandleTcp c data).icmpSent = [] ∧
    (Client.HandleTcp c data).exited = false := by
  unfold Client.HandleTcp
  obtain ⟨e, he⟩ := create_never_ok
    { type := ICMP_ECHO_REQUEST,
      code := if data.length > 0 then 0 else 1, checksum := 0, id := 0,
      sequence := 0, payload := data, srcIp := PyVal.none,
      dst := some (.bytes c.dst.1, c.dst.2), magic := .int IcmpPacket.MAGIC }
  simp [he]

theorem handleIcmpParsed_magic_mismatch (s : ServerState) (addr : List Nat)
    (p : IcmpPacket) (h : p.magic ≠ PyVal.int IcmpPacket.MAGIC) :
    Server.HandleIcmpParsed s addr p =
      ⟨{ s with src := some addr, dst := p.dst }, [], [], Option.none⟩ := by
  unfold Server.HandleIcmpParsed
  simp [h]

theorem clientHandleIcmpParsed_magic_mismatch (c : ClientState)
    (p : IcmpPacket) (h : p.magic ≠ PyVal.int IcmpPacket.MAGIC) :
    Client.HandleIcmpParsed c p = ⟨c, [], [], Option.none, false⟩ := by
  unfold Client.HandleIcmpParsed
  simp [h]

theorem handleIcmpParsed_data_idle (s : ServerState) (addr : List Nat)
    (p : IcmpPacket) (h1 : s.tcpSocket = Option.none)
    (h2 : p.magic = PyVal.int IcmpPacket.MAGIC)
    (h3 : p.type = ICMP_ECHO_REQUEST) (h4 : p.code = 0) :
    Server.HandleIcmpParsed s addr p =
      ⟨{ s with src := some addr, dst := p.dst,
                tcpSocket := some s.tcpGen,
                sockets := s.sockets ++ [Sock.tcp s.tcpGen],
                tcpGen := s.tcpGen + 1 }, [], [p.payload], Option.none⟩ := by
  unfold Server.HandleIcmpParsed
  simp [h1, h2, h3, h4, ICMP_ECHO_REQUEST, ICMP_ECHO_REPLY]

/-- sockInv only looks at the tcpSocket and sockets fields, which a
src and dst update leaves untouched. -/
theorem sockInv_update (s : ServerState) (a : Option (List Nat))
    (dd : Option (PyVal × Nat)) :
    sockInv { s with src := a, dst := dd } ↔ sockInv s := Iff.rfl

theorem sockInv_init : sockInv Server.initState := rfl

theorem sockInv_handleIcmpParsed (s : ServerState) (addr : List Nat)
    (p : IcmpPacket) (h : sockInv s) :
    sockInv (Server.HandleIcmpParsed s addr p).st := by
  unfold Server.HandleIcmpParsed
  unfold sockInv at h
  rcases hts : s.tcpSocket with _ | t <;> rw [hts] at h <;>
    dsimp only at h ⊢
  · split
    · simp [sockInv, h]
    · split
      · simp [sockInv, h]
      · split
        · simp [sockInv, h]
        · simp [sockInv, h]
  · split
    · simp [sockInv, h]
    · split
      · simp [sockInv, h]
      · split
        · simp [sockInv, h, List.erase_cons]
        · simp [sockInv, h]

theorem sockInv_handleTcp (s : ServerState) (data : List Nat)
    (h : sockInv s) : sockInv (Server.HandleTcp s data).st := by
  rw [(serverHandleTcp_noSend s data).1]
  exact h

theorem sockInv_handleIcmp (s : ServerState) (addr raw : List Nat)
    (h : sockInv s) : sockInv (Server.HandleIcmp s addr raw).st := by
  unfold Server.HandleIcmp
  split
  · exact h
  · exact sockInv_handleIcmpParsed s addr _ h

theorem reachable_sockInv (s : ServerState) (h : Reachable s) :
    sockInv s := by
  induction h with
  | init => exact sockInv_init
  | icmp s addr raw _ ih => exact sockInv_handleIcmp s addr raw ih
  | icmpParsed s addr p _ ih => exact sockInv_handleIcmpParsed s addr p ih
  | tcp s data _ ih => exact sockInv_handleTcp s data ih

theorem watch_of_sockInv (s : ServerState) (h : sockInv s) :
    Sock.icmp ∈ s.sockets ∧
    (∀ t, s.tcpSocket = some t → Sock.tcp t ∈ s.sockets) ∧
    (s.tcpSocket = Option.none → ∀ g, Sock.tcp g ∉ s.sockets) := by
  unfold sockInv at h
  rcases hts : s.tcpSocket with _ | t <;> rw [hts] at h <;> simp_all

/-- Claim C1: the round-trip of the wire codec, decoding the encoding
of a tunnel packet and recovering type, code, dstAddr, dstPort, magic
and payload, is impossible in the code: Create raises TypeError on the
scenario-1 tunnel packet (the integer magic reaches inet_aton, which
requires a string), and Parse raises on every received datagram, so no
tunnel packet is ever encoded or decoded. -/
theorem C1_roundtrip_impossible :
    IcmpPacket.Create tunnelPacketExample = .error PyErr.typeError ∧
    ∀ d : List Nat, ∃ e, IcmpPacket.Parse d = .error e :=
  ⟨rfl, parse_always_fails⟩

/-- Claim C2: the fixed ICMP prefix of the example tunnel datagram
does carry the integer 0x24426886 big-endian at offset 14, and line
113 of Icmp.py reads it correctly, but Parse then raises socket.error
at line 118 (inet_ntoa applied to the already-stringified source
address) instead of returning a packet whose magic field is that plain
32-bit integer. -/
theorem C2_magic_not_plain_integer :
    (IcmpPacket.structUnpackICMP ((exampleDatagram.drop 20).take 18)).map
        IcmpPacket.IcmpHeaderFields.magic = .ok 0x24426886 ∧
    IcmpPacket.Parse exampleDatagram = .error PyErr.socketError :=
  ⟨rfl, rfl⟩

/-- Claim C3: on the two-byte input 0x01 0x02 the Checksum of the
source returns 0xFFFC while the canonical Internet checksum defined by
the words of the spec is 0xFEFD; the code sums each pair as
(p[i] + p[i+1]) * 256 rather than as the big-endian word
p[i] * 256 + p[i+1], adds an odd trailing byte as a low byte, and
byte-swaps the final result, so it does not compute the canonical
checksum. -/
theorem C3_checksum_not_canonical :
    IcmpPacket.Checksum [1, 2] = 0xFFFC ∧
    specInternetChecksum [1, 2] = 0xFEFD ∧
    IcmpPacket.Checksum [1, 2] ≠ specInternetChecksum [1, 2] :=
  ⟨rfl, rfl, by decide⟩

/-- Claim C4, counterexample: the responder handles a well-formed
parsed packet whose magic is 0xDEADBEEF (spec scenario 6) and its src
attribute changes from None to the source address, so the state is not
unchanged as the claim requires. -/
theorem C4_counterexample :
    (Server.HandleIcmpParsed Server.initState addrExample
        wrongMagicPacket).st.src ≠ Server.initState.src := by decide

/-- Claim C4 (amended): a parsed packet whose magic differs from the
tunnel constant produces no traffic and no exception in either engine
and leaves the responder streamSock and watch list unchanged, but the
responder has already overwritten its src and dst attributes (Tunnel.py
lines 104-105 run before the magic test of line 108); the client state
is fully unchanged. -/
theorem C4_magic_filtering (s : ServerState) (addr : List Nat)
    (p : IcmpPacket) (c : ClientState)
    (h : p.magic ≠ PyVal.int IcmpPacket.MAGIC) :
    Server.HandleIcmpParsed s addr p =
      ⟨{ s with src := some addr, dst := p.dst }, [], [], Option.none⟩ ∧
    Client.HandleIcmpParsed c p = ⟨c, [], [], Option.none, false⟩ :=
  ⟨handleIcmpParsed_magic_mismatch s addr p h,
   clientHandleIcmpParsed_magic_mismatch c p h⟩

/-- Claim C4, witness: the amended statement at the scenario-6
inputs. -/
theorem C4_magic_filtering_witness :
    Server.HandleIcmpParsed Server.initState addrExample wrongMagicPacket =
      ⟨{ Server.initState with src := some addrExample,
                               dst := wrongMagicPacket.dst },
        [], [], Option.none⟩ ∧
    Client.HandleIcmpParsed clientExample wrongMagicPacket =
      ⟨clientExample, [], [], Option.none, false⟩ :=
  C4_magic_filtering Server.initState addrExample wrongMagicPacket
    clientExample (by decide)

/-- Claim C5: a first END request moves the Active responder to Idle
without exception, but a second END, arriving when streamSock is
already None, raises ValueError (Tunnel.py line 118 calls
sockets.remove on the stored None, which the watch list does not
contain) instead of being a no-op. -/
theorem C5_second_end_raises :
    (Server.HandleIcmpParsed serverActiveExample addrExample endPacket).exn
        = Option.none ∧
    (Server.HandleIcmpParsed serverActiveExample addrExample
        endPacket).st.tcpSocket = Option.none ∧
    (Server.HandleIcmpParsed
        (Server.HandleIcmpParsed serverActiveExample addrExample
            endPacket).st addrExample endPacket).exn =
      some PyErr.valueError := by decide

/-- Claim C6, counterexample: after the Idle responder handles a DATA
request with empty payload and the tunnel magic, streamSock is no
longer None - the code opens the stream connection unconditionally. -/
theorem C6_counterexample :
    (Server.HandleIcmpParsed Server.initState addrExample
        emptyDataPacket).st.tcpSocket ≠ Option.none := by decide

/-- Claim C6 (amended): a DATA request carrying the tunnel magic and
received in Idle opens the stream connection regardless of payload
emptiness: streamSock becomes the fresh socket, that socket joins the
watch list, and the payload (the empty payload included) is written to
it. -/
theorem C6_empty_data_opens_stream (s : ServerState) (addr : List Nat)
    (p : IcmpPacket) (h1 : s.tcpSocket = Option.none)
    (h2 : p.magic = PyVal.int IcmpPacket.MAGIC)
    (h3 : p.type = ICMP_ECHO_REQUEST) (h4 : p.code = 0) :
    (Server.HandleIcmpParsed s addr p).st.tcpSocket = some s.tcpGen ∧
    (Server.HandleIcmpParsed s addr p).st.sockets =
      s.sockets ++ [Sock.tcp s.tcpGen] ∧
    (Server.HandleIcmpParsed s addr p).tcpSent = [p.payload] := by
  rw [handleIcmpParsed_data_idle s addr p h1 h2 h3 h4]
  exact ⟨rfl, rfl, rfl⟩

/-- Claim C6, witness: the amended statement at the empty-payload DATA
request in the initial Idle state. -/
theorem C6_empty_data_witness :
    (Server.HandleIcmpParsed Server.initState addrExample
        emptyDataPacket).st.tcpSocket = some Server.initState.tcpGen ∧
    (Server.HandleIcmpParsed Server.initState addrExample
        emptyDataPacket).st.sockets =
      Server.initState.sockets ++ [Sock.tcp Server.initState.tcpGen] ∧
    (Server.HandleIcmpParsed Server.initState addrExample
        emptyDataPacket).tcpSent = [emptyDataPacket.payload] :=
  C6_empty_data_opens_stream Server.initState addrExample emptyDataPacket
    rfl rfl rfl rfl

/-- Claim C7: on a stream-ready read the initiator never emits the
Echo Request the claim describes: packet.Create() raises TypeError
(the default int magic reaches inet_aton) before sendto, for the empty
read (which would be END) just as for a data read, so nothing is sent
and the exit call of Tunnel.py line 216 is never reached. -/
theorem C7_initiator_emits_nothing :
    (Client.HandleTcp clientExample []).icmpSent = [] ∧
    (Client.HandleTcp clientExample []).exn = some PyErr.typeError ∧
    (Client.HandleTcp clientExample []).exited = false ∧
    (Client.HandleTcp clientExample gBytes).icmpSent = [] ∧
    (Client.HandleTcp clientExample gBytes).exn = some PyErr.typeError ∧
    (Client.HandleTcp clientExample gBytes).exited = false := by decide

/-- Claim C8: in every reachable responder state the watch list
contains the raw ICMP socket and contains the stream socket exactly
when streamSock is not None, and every handler step - the raw ICMP
receive, the post-parse body (stream open and teardown included) and
the stream receive - preserves the invariant. -/
theorem C8_watchset_invariant :
    (∀ s, Reachable s → Sock.icmp ∈ s.sockets ∧
      (∀ t, s.tcpSocket = some t → Sock.tcp t ∈ s.sockets) ∧
      (s.tcpSocket = Option.none → ∀ g, Sock.tcp g ∉ s.sockets)) ∧
    (∀ s addr p, sockInv s →
      sockInv (Server.HandleIcmpParsed s addr p).st) ∧
    (∀ s data, sockInv s → sockInv (Server.HandleTcp s data).st) ∧
    (∀ s addr raw, sockInv s → sockInv (Server.HandleIcmp s addr raw).st) :=
  ⟨fun s hr => watch_of_sockInv s (reachable_sockInv s hr),
   sockInv_handleIcmpParsed, sockInv_handleTcp, sockInv_handleIcmp⟩

/-- Claim C8, witness: the invariant at the initial state and its
preservation across a concrete stream-open step and a concrete stream
receive. -/
theorem C8_watchset_witness :
    (Sock.icmp ∈ Server.initState.sockets ∧
      (∀ t, Server.initState.tcpSocket = some t →
        Sock.tcp t ∈ Server.initState.sockets) ∧
      (Server.initState.tcpSocket = Option.none →
        ∀ g, Sock.tcp g ∉ Server.initState.sockets)) ∧
    sockInv (Server.HandleIcmpParsed Server.initState addrExample
      emptyDataPacket).st ∧
    sockInv (Server.HandleTcp serverActiveExample gBytes).st :=
  ⟨C8_watchset_invariant.1 Server.initState Reachable.init,
   C8_watchset_invariant.2.1 Server.initState addrExample emptyDataPacket rfl,
   C8_watchset_invariant.2.2.1 serverActiveExample gBytes rfl⟩

/-- Claim C9, counterexample: Parse raises socket.error on the second
example datagram, so it does not return a packet whose magic field is
the dotted-quad string of the source address - it returns no packet at
all. -/
theorem C9_counterexample :
    IcmpPacket.Parse exampleDatagram2 = .error PyErr.socketError := rfl

/-- Claim C9 (amended): for every received datagram Parse raises (line
118 of Icmp.py applies inet_ntoa to the already-stringified source
address), so it never returns a packet; consequently both engines drop
every received datagram at the parse step with no state change and no
traffic, no payload is ever forwarded to a stream socket, and the
responder streamSock can never be changed by an ICMP receive. -/
theorem C9_parse_never_returns :
    (∀ d : List Nat, ∃ e, IcmpPacket.Parse d = .error e) ∧
    (∀ s addr raw, Server.HandleIcmp s addr raw = ⟨s, [], [], Option.none⟩) ∧
    (∀ c raw, Client.HandleIcmp c raw = ⟨c, [], [], Option.none, false⟩) := by
  refine ⟨parse_always_fails, ?_, ?_⟩
  · intro s addr raw
    obtain ⟨e, he⟩ := parse_always_fails raw
    unfold Server.HandleIcmp
    rw [he]
  · intro c raw
    obtain ⟨e, he⟩ := parse_always_fails raw
    unfold Client.HandleIcmp
    rw [he]

/-- Claim C10: with the default integer magic, inet_aton raises
TypeError on the magic and Create never returns bytes, so neither the
responder reply path nor the initiator send path ever hands a datagram
to sendto. -/
theorem C10_create_always_raises :
    (∀ p : IcmpPacket, p.magic = PyVal.int IcmpPacket.MAGIC →
      inet_aton p.magic = .error PyErr.typeError ∧
      ∃ e, IcmpPacket.Create p = .error e) ∧
    (∀ s data, (Server.HandleTcp s data).icmpSent = []) ∧
    (∀ c data, (Client.HandleTcp c data).icmpSent = []) :=
  ⟨fun p hm => ⟨by rw [hm]; rfl, create_never_ok p⟩,
   fun s data => (serverHandleTcp_noSend s data).2,
   fun c data => (clientHandleTcp_noSend c data).2.1⟩

/-- Claim C10, witness: the statement at the scenario-1 packet, the
Active responder reply path and the initiator send path. -/
theorem C10_create_witness :
    (inet_aton tunnelPacketExample.magic = .error PyErr.typeError ∧
      ∃ e, IcmpPacket.Create tunnelPacketExample = .error e) ∧
    (Server.HandleTcp serverActiveExample gBytes).icmpSent = [] ∧
    (Client.HandleTcp clientExample gBytes).icmpSent = [] :=
  ⟨C10_create_always_raises.1 tunnelPacketExample rfl,
   C10_create_always_raises.2.1 serverActiveExample gBytes,
   C10_create_always_raises.2.2 clientExample gBytes⟩

end IcmpTunnel
